import Mathlib

/-!
Verification of the cube-state core of `src/Rubic_Cube_2D.py`: the six-face
sticker model, the face-rotation primitive `rotate_face_matrix`, the
face-turn operator `rotate_cube_face` with its adjacency table, the solved
check `is_solved`, and the scramble loop `scramble_cube`.

Each Python face is a 3x3 list of lists of sticker values; the cube is a
dict mapping the six face keys to such grids.  Here a face grid is a
`Grid`: three `Row`s of three cells each, and a cube is a `Cube`: the six
grids keyed by the face names U, D, L, R, F, B.  Sticker values are kept
polymorphic (`α`), matching the untyped Python cells; the concrete colors
are the `Color` type below.
-/

/-- The six sticker colors: W (white), Y (yellow), O (orange), R (red),
G (green), B (blue), as in `STARTING_COLORS`. -/
inductive Color
  | W | Y | O | R | G | B
  deriving DecidableEq, Fintype

/-- The six faces: U (up), D (down), L (left), R (right), F (front), B (back). -/
inductive Face
  | U | D | L | R | F | B
  deriving DecidableEq, Fintype

/-- One row (or one extracted column) of three sticker cells. -/
structure Row (α : Type) where
  c0 : α
  c1 : α
  c2 : α
  deriving DecidableEq

/-- A 3x3 face grid: rows `r0`, `r1`, `r2`, row-major as in the Python
list-of-lists representation. -/
structure Grid (α : Type) where
  r0 : Row α
  r1 : Row α
  r2 : Row α
  deriving DecidableEq

/-- The whole cube state: the dict `{face: 3x3 grid}` with its six keys. -/
structure Cube (α : Type) where
  U : Grid α
  D : Grid α
  L : Grid α
  R : Grid α
  F : Grid α
  B : Grid α
  deriving DecidableEq

variable {α : Type}

/-- A grid filled with a single sticker value, as built by the comprehension
`[[STARTING_COLORS[f] for _ in range(3)] for _ in range(3)]`. -/
def uniformGrid (a : α) : Grid α := ⟨⟨a, a, a⟩, ⟨a, a, a⟩, ⟨a, a, a⟩⟩

/-- `make_solved_cube` (lines 26-30): every face uniformly filled with its
starting color from `STARTING_COLORS`. -/
def make_solved_cube : Cube Color :=
  { U := uniformGrid .W, D := uniformGrid .Y, L := uniformGrid .O,
    R := uniformGrid .R, F := uniformGrid .G, B := uniformGrid .B }

/-- `zip(*face_mat)`: the transpose of a 3x3 matrix. -/
def transposeGrid (m : Grid α) : Grid α :=
  ⟨⟨m.r0.c0, m.r1.c0, m.r2.c0⟩, ⟨m.r0.c1, m.r1.c1, m.r2.c1⟩, ⟨m.r0.c2, m.r1.c2, m.r2.c2⟩⟩

/-- `reversed(face_mat)` / `[::-1]`: reverse the order of the three rows. -/
def reverseRows (m : Grid α) : Grid α := ⟨m.r2, m.r1, m.r0⟩

/-- `list(reversed(col))`: reverse one row of three cells. -/
def reverseRow (r : Row α) : Row α := ⟨r.c2, r.c1, r.c0⟩

/-- Apply a function to each of the three rows (the outer list comprehension). -/
def mapRows (f : Row α → Row α) (m : Grid α) : Grid α := ⟨f m.r0, f m.r1, f m.r2⟩

/-- `rotate_face_matrix` (lines 34-40).  The clockwise branch is
`[list(reversed(col)) for col in zip(*face_mat)]`; the other branch is
`[list(col) for col in zip(*reversed(face_mat))][::-1]`, transcribed
exactly as written. -/
def rotate_face_matrix (face_mat : Grid α) (clockwise : Bool) : Grid α :=
  if clockwise then
    mapRows reverseRow (transposeGrid face_mat)
  else
    reverseRows (transposeGrid (reverseRows face_mat))

/-- `get_row` (lines 44-45): copy row `idx` of a face grid. -/
def get_row (face : Grid α) : Fin 3 → Row α
  | 0 => face.r0
  | 1 => face.r1
  | 2 => face.r2

/-- `set_row` (lines 48-49): replace row `idx` of a face grid. -/
def set_row (face : Grid α) (idx : Fin 3) (values : Row α) : Grid α :=
  match idx with
  | 0 => { face with r0 := values }
  | 1 => { face with r1 := values }
  | 2 => { face with r2 := values }

/-- `get_col` (lines 52-53): read column `idx` of a face grid, top to bottom. -/
def get_col (face : Grid α) (idx : Fin 3) : Row α :=
  match idx with
  | 0 => ⟨face.r0.c0, face.r1.c0, face.r2.c0⟩
  | 1 => ⟨face.r0.c1, face.r1.c1, face.r2.c1⟩
  | 2 => ⟨face.r0.c2, face.r1.c2, face.r2.c2⟩

/-- `set_col` (lines 56-58): overwrite column `idx` of a face grid. -/
def set_col (face : Grid α) (idx : Fin 3) (values : Row α) : Grid α :=
  match idx with
  | 0 => ⟨{ face.r0 with c0 := values.c0 }, { face.r1 with c0 := values.c1 },
          { face.r2 with c0 := values.c2 }⟩
  | 1 => ⟨{ face.r0 with c1 := values.c0 }, { face.r1 with c1 := values.c1 },
          { face.r2 with c1 := values.c2 }⟩
  | 2 => ⟨{ face.r0 with c2 := values.c0 }, { face.r1 with c2 := values.c1 },
          { face.r2 with c2 := values.c2 }⟩

/-- `cube[face]`: read one face grid of the cube dict. -/
def getFace (cube : Cube α) : Face → Grid α
  | .U => cube.U
  | .D => cube.D
  | .L => cube.L
  | .R => cube.R
  | .F => cube.F
  | .B => cube.B

/-- `cube[face] = g`: replace one face grid of the cube dict. -/
def setFace (cube : Cube α) (f : Face) (g : Grid α) : Cube α :=
  match f with
  | .U => { cube with U := g }
  | .D => { cube with D := g }
  | .L => { cube with L := g }
  | .R => { cube with R := g }
  | .F => { cube with F := g }
  | .B => { cube with B := g }

/-- Whether an adjacency-table entry names a row or a column. -/
inductive StripType
  | row | col
  deriving DecidableEq

/-- One entry `(adj_face, 'row'/'col', index, reverse_flag)` of the
adjacency table inside `rotate_cube_face`. -/
structure StripRef where
  af : Face
  typ : StripType
  idx : Fin 3
  rev : Bool
  deriving DecidableEq

/-- The per-face `seq` lists of `rotate_cube_face` (lines 73-114), four
entries each, transcribed in order. -/
def seqFor : Face → StripRef × StripRef × StripRef × StripRef
  | .U => (⟨.B, .row, 0, false⟩, ⟨.R, .row, 0, false⟩, ⟨.F, .row, 0, false⟩, ⟨.L, .row, 0, false⟩)
  | .D => (⟨.F, .row, 2, false⟩, ⟨.R, .row, 2, false⟩, ⟨.B, .row, 2, false⟩, ⟨.L, .row, 2, false⟩)
  | .F => (⟨.U, .row, 2, false⟩, ⟨.R, .col, 0, true⟩, ⟨.D, .row, 0, true⟩, ⟨.L, .col, 2, false⟩)
  | .B => (⟨.U, .row, 0, true⟩, ⟨.L, .col, 0, true⟩, ⟨.D, .row, 2, false⟩, ⟨.R, .col, 2, false⟩)
  | .L => (⟨.U, .col, 0, false⟩, ⟨.F, .col, 0, false⟩, ⟨.D, .col, 0, false⟩, ⟨.B, .col, 2, true⟩)
  | .R => (⟨.U, .col, 2, false⟩, ⟨.B, .col, 0, true⟩, ⟨.D, .col, 2, false⟩, ⟨.F, .col, 2, false⟩)

/-- The read loop (lines 119-125): fetch a strip and reverse it when its
`rev` flag is set. -/
def readStrip (cube : Cube α) (s : StripRef) : Row α :=
  let p :=
    match s.typ with
    | .row => get_row (getFace cube s.af) s.idx
    | .col => get_col (getFace cube s.af) s.idx
  if s.rev then reverseRow p else p

/-- The write-back loop (lines 134-139): reverse again when flagged, then
store into the strip's row or column. -/
def writeStrip (cube : Cube α) (s : StripRef) (data : Row α) : Cube α :=
  let out := if s.rev then reverseRow data else data
  match s.typ with
  | .row => setFace cube s.af (set_row (getFace cube s.af) s.idx out)
  | .col => setFace cube s.af (set_col (getFace cube s.af) s.idx out)

/-- `rotate_cube_face` (lines 63-139) for a recognized face: rotate the
face's own grid, read the four adjacency strips, shift them cyclically by
one (right for clockwise, left otherwise), and write them back in order. -/
def rotate_cube_face (cube : Cube α) (face_name : Face) (clockwise : Bool) : Cube α :=
  let cube1 := setFace cube face_name (rotate_face_matrix (getFace cube face_name) clockwise)
  let sq := seqFor face_name
  let p0 := readStrip cube1 sq.1
  let p1 := readStrip cube1 sq.2.1
  let p2 := readStrip cube1 sq.2.2.1
  let p3 := readStrip cube1 sq.2.2.2
  let parts : Row α × Row α × Row α × Row α :=
    if clockwise then (p3, p0, p1, p2) else (p1, p2, p3, p0)
  let cube2 := writeStrip cube1 sq.1 parts.1
  let cube3 := writeStrip cube2 sq.2.1 parts.2.1
  let cube4 := writeStrip cube3 sq.2.2.1 parts.2.2.1
  writeStrip cube4 sq.2.2.2 parts.2.2.2

/-- The face keys recognized by `rotate_cube_face`'s dispatch, i.e. the
keys of the cube dict (insertion order of `STARTING_COLORS`). -/
def lookupFace (face_name : String) : Option Face :=
  if face_name = "U" then some .U
  else if face_name = "D" then some .D
  else if face_name = "L" then some .L
  else if face_name = "R" then some .R
  else if face_name = "F" then some .F
  else if face_name = "B" then some .B
  else none

/-- `rotate_cube_face` as called with a raw face-name string.  Line 65
evaluates `cube[face_name]` before any dispatch, so an unrecognized name
raises `KeyError` (the dict has exactly the six face keys); that failure
is modelled as `none`.  A recognized name always completes the turn. -/
def rotate_cube_face_checked (cube : Cube α) (face_name : String) (clockwise : Bool) :
    Option (Cube α) :=
  match lookupFace face_name with
  | some f => some (rotate_cube_face cube f clockwise)
  | none => none

/-- Iteration order of `for f in cube:` — the dict keys in the insertion
order of `STARTING_COLORS` (line 12). -/
def face_keys : List Face := [.U, .D, .L, .R, .F, .B]

/-- The nine cells of a face grid in the `for r ... for c ...` scan order. -/
def grid_cells (g : Grid α) : List α :=
  [g.r0.c0, g.r0.c1, g.r0.c2, g.r1.c0, g.r1.c1, g.r1.c2, g.r2.c0, g.r2.c1, g.r2.c2]

/-- `is_solved` (lines 183-190): every cell of every face equals that
face's `[0][0]` cell. -/
def is_solved [DecidableEq α] (cube : Cube α) : Bool :=
  face_keys.all fun f =>
    let col := (getFace cube f).r0.c0
    (grid_cells (getFace cube f)).all fun x => x == col

/-- `scramble_cube` (lines 175-180) applies a sequence of random
`(face, clockwise)` turns; the draws of `random.choice` are abstracted as
the explicit list of moves chosen. -/
def scramble_cube (cube : Cube α) (moves : List (Face × Bool)) : Cube α :=
  moves.foldl (fun c m => rotate_cube_face c m.1 m.2) cube

/-- The opposite-face pairing Up-Down, Left-Right, Front-Back. -/
def opposite : Face → Face
  | .U => .D
  | .D => .U
  | .L => .R
  | .R => .L
  | .F => .B
  | .B => .F

/-- The multiset of the nine sticker values on one face grid. -/
def gridStickers (g : Grid α) : Multiset α :=
  {g.r0.c0} + {g.r0.c1} + {g.r0.c2} + {g.r1.c0} + {g.r1.c1} + {g.r1.c2} +
    {g.r2.c0} + {g.r2.c1} + {g.r2.c2}

/-- The multiset of all 54 sticker values of a cube state. -/
def cubeStickers (c : Cube α) : Multiset α :=
  gridStickers c.U + gridStickers c.D + gridStickers c.L + gridStickers c.R +
    gridStickers c.F + gridStickers c.B

/-- Modelled from the spec: the clockwise quarter-turn of a 3x3 grid,
"clockwise rotation maps cell (r,c) to (c, 2-r)". -/
def cw_spec_rotation (m : Grid α) : Grid α :=
  ⟨⟨m.r2.c0, m.r1.c0, m.r0.c0⟩, ⟨m.r2.c1, m.r1.c1, m.r0.c1⟩, ⟨m.r2.c2, m.r1.c2, m.r0.c2⟩⟩

/-- Modelled from the spec: the counterclockwise quarter-turn of a 3x3
grid, "counterclockwise is its inverse, (r,c) → (2-c, r)". -/
def ccw_spec_rotation (m : Grid α) : Grid α :=
  ⟨⟨m.r0.c2, m.r1.c2, m.r2.c2⟩, ⟨m.r0.c1, m.r1.c1, m.r2.c1⟩, ⟨m.r0.c0, m.r1.c0, m.r2.c0⟩⟩

/-- A face grid holding nine distinct numbered stickers `k .. k+8`. -/
def numGrid (k : Nat) : Grid Nat :=
  ⟨⟨k, k + 1, k + 2⟩, ⟨k + 3, k + 4, k + 5⟩, ⟨k + 6, k + 7, k + 8⟩⟩

/-- A cube state whose 54 stickers are the distinct numbers 0 .. 53. -/
def numCube : Cube Nat :=
  { U := numGrid 0, D := numGrid 9, L := numGrid 18, R := numGrid 27,
    F := numGrid 36, B := numGrid 45 }

/-- A hand-edited cube whose six faces are all uniformly white: monochrome
faces whose six colors are not pairwise distinct. -/
def allSameCube : Cube Color :=
  { U := uniformGrid .W, D := uniformGrid .W, L := uniformGrid .W,
    R := uniformGrid .W, F := uniformGrid .W, B := uniformGrid .W }

/-- Shared destructuring helper: a turn fixes the center cell of every
face, for any state, face and direction. -/
theorem rotate_center_eq (s : Cube α) (f : Face) (cw : Bool) (g : Face) :
    (getFace (rotate_cube_face s f cw) g).r1.c1 = (getFace s g).r1.c1 := by
  obtain ⟨⟨⟨a1,a2,a3⟩,⟨a4,a5,a6⟩,⟨a7,a8,a9⟩⟩,⟨⟨b1,b2,b3⟩,⟨b4,b5,b6⟩,⟨b7,b8,b9⟩⟩,⟨⟨c1,c2,c3⟩,⟨c4,c5,c6⟩,⟨c7,c8,c9⟩⟩,⟨⟨d1,d2,d3⟩,⟨d4,d5,d6⟩,⟨d7,d8,d9⟩⟩,⟨⟨e1,e2,e3⟩,⟨e4,e5,e6⟩,⟨e7,e8,e9⟩⟩,⟨⟨f1,f2,f3⟩,⟨f4,f5,f6⟩,⟨f7,f8,f9⟩⟩⟩ := s
  cases f <;> cases cw <;> cases g <;> rfl

/-- Claim C1: the code violates the inverse law.  On the numbered cube, a
clockwise U turn followed by a counterclockwise U turn does not restore
the prior state: it leaves the U face mirrored left-to-right (the
counterclockwise branch of rotate_face_matrix is an anti-diagonal
reflection, not a rotation), while all other stickers are restored. -/
theorem turn_cw_then_ccw_not_inverse :
    rotate_cube_face (rotate_cube_face numCube .U true) .U false ≠ numCube ∧
    rotate_cube_face (rotate_cube_face numCube .U true) .U false =
      setFace numCube .U ⟨⟨2, 1, 0⟩, ⟨5, 4, 3⟩, ⟨8, 7, 6⟩⟩ := by
  decide

/-- Claim C2: the clockwise branch of rotate_face_matrix does map cell
(r,c) to (c, 2-r), but the counterclockwise branch is not its inverse: on
the numbered grid it returns the anti-diagonal reflection
[[8,5,2],[7,4,1],[6,3,0]] instead of the spec's rotation image. -/
theorem rotate_face_matrix_ccw_bug_eval :
    (∀ (β : Type) (m : Grid β), rotate_face_matrix m true = cw_spec_rotation m) ∧
    rotate_face_matrix (numGrid 0) false = ⟨⟨8, 5, 2⟩, ⟨7, 4, 1⟩, ⟨6, 3, 0⟩⟩ ∧
    rotate_face_matrix (numGrid 0) false ≠ ccw_spec_rotation (numGrid 0) := by
  exact ⟨fun β m => rfl, by decide, by decide⟩

/-- Claim C3: applying a clockwise turn of the same face four times in
succession restores the exact prior 54-sticker state, for every state and
every face. -/
theorem turn_four_times_eq_self (s : Cube α) (f : Face) :
    rotate_cube_face (rotate_cube_face (rotate_cube_face
      (rotate_cube_face s f true) f true) f true) f true = s := by
  obtain ⟨⟨⟨a1,a2,a3⟩,⟨a4,a5,a6⟩,⟨a7,a8,a9⟩⟩,⟨⟨b1,b2,b3⟩,⟨b4,b5,b6⟩,⟨b7,b8,b9⟩⟩,⟨⟨c1,c2,c3⟩,⟨c4,c5,c6⟩,⟨c7,c8,c9⟩⟩,⟨⟨d1,d2,d3⟩,⟨d4,d5,d6⟩,⟨d7,d8,d9⟩⟩,⟨⟨e1,e2,e3⟩,⟨e4,e5,e6⟩,⟨e7,e8,e9⟩⟩,⟨⟨f1,f2,f3⟩,⟨f4,f5,f6⟩,⟨f7,f8,f9⟩⟩⟩ := s
  cases f <;> rfl

/-- Claim C5: after a clockwise Front turn, Up's bottom row holds the
prior values of Left's column 2 in natural (unreversed) order — stated
for every state, and instantiated on the solved cube. -/
theorem front_turn_up_row2_from_left_col2 :
    (∀ (β : Type) (s : Cube β),
      get_row (getFace (rotate_cube_face s .F true) .U) 2 = get_col (getFace s .L) 2) ∧
    get_row (getFace (rotate_cube_face make_solved_cube .F true) .U) 2 =
      get_col (getFace make_solved_cube .L) 2 := by
  constructor
  · intro β s
    obtain ⟨⟨⟨a1,a2,a3⟩,⟨a4,a5,a6⟩,⟨a7,a8,a9⟩⟩,⟨⟨b1,b2,b3⟩,⟨b4,b5,b6⟩,⟨b7,b8,b9⟩⟩,⟨⟨c1,c2,c3⟩,⟨c4,c5,c6⟩,⟨c7,c8,c9⟩⟩,⟨⟨d1,d2,d3⟩,⟨d4,d5,d6⟩,⟨d7,d8,d9⟩⟩,⟨⟨e1,e2,e3⟩,⟨e4,e5,e6⟩,⟨e7,e8,e9⟩⟩,⟨⟨f1,f2,f3⟩,⟨f4,f5,f6⟩,⟨f7,f8,f9⟩⟩⟩ := s
    rfl
  · decide

/-- Claim C6: a turn of face f leaves every cell of f's opposite face
unchanged, for every state and both directions. -/
theorem turn_fixes_opposite_face (s : Cube α) (f : Face) (cw : Bool) :
    getFace (rotate_cube_face s f cw) (opposite f) = getFace s (opposite f) := by
  obtain ⟨⟨⟨a1,a2,a3⟩,⟨a4,a5,a6⟩,⟨a7,a8,a9⟩⟩,⟨⟨b1,b2,b3⟩,⟨b4,b5,b6⟩,⟨b7,b8,b9⟩⟩,⟨⟨c1,c2,c3⟩,⟨c4,c5,c6⟩,⟨c7,c8,c9⟩⟩,⟨⟨d1,d2,d3⟩,⟨d4,d5,d6⟩,⟨d7,d8,d9⟩⟩,⟨⟨e1,e2,e3⟩,⟨e4,e5,e6⟩,⟨e7,e8,e9⟩⟩,⟨⟨f1,f2,f3⟩,⟨f4,f5,f6⟩,⟨f7,f8,f9⟩⟩⟩ := s
  cases f <;> cases cw <;> rfl

/-- Claim C9: the freshly created cube is solved, and one clockwise turn
of any of the six faces makes it unsolved. -/
theorem solved_cube_solved_and_one_turn_unsolves :
    is_solved make_solved_cube = true ∧
    ∀ f : Face, is_solved (rotate_cube_face make_solved_cube f true) = false := by
  decide

/-- Claim C10: no turn ever changes the center cell of any face, and
consequently any scramble (any sequence of turns) fixes all six centers. -/
theorem turn_and_scramble_fix_centers :
    (∀ (β : Type) (s : Cube β) (f : Face) (cw : Bool) (g : Face),
      (getFace (rotate_cube_face s f cw) g).r1.c1 = (getFace s g).r1.c1) ∧
    (∀ (β : Type) (moves : List (Face × Bool)) (s : Cube β) (g : Face),
      (getFace (scramble_cube s moves) g).r1.c1 = (getFace s g).r1.c1) := by
  refine ⟨fun β s f cw g => rotate_center_eq s f cw g, fun β moves => ?_⟩
  induction moves with
  | nil => intro s g; rfl
  | cons m rest ih =>
      intro s g
      have h : scramble_cube s (m :: rest) = scramble_cube (rotate_cube_face s m.1 m.2) rest := rfl
      rw [h, ih, rotate_center_eq]

/-- Claim C7: calling the turn with a raw face-name string fails (the
`cube[face_name]` lookup raises) exactly when the name is not one of the
six recognized identifiers, and succeeds on all six. -/
theorem turn_checked_fails_iff_unknown_face (c : Cube α) (face_name : String) (cw : Bool) :
    (rotate_cube_face_checked c face_name cw).isSome = true ↔
      face_name ∈ (["U", "D", "L", "R", "F", "B"] : List String) := by
  unfold rotate_cube_face_checked lookupFace
  split_ifs <;> simp_all

/-- Claim C8: is_solved is true exactly when every one of the nine cells
of every face equals that face's top-left cell; in particular the
hand-edited all-white cube (six monochrome faces with equal, hence not
pairwise distinct, colors) still reports solved. -/
theorem is_solved_iff_faces_monochrome :
    (∀ (β : Type) [DecidableEq β] (c : Cube β),
      is_solved c = true ↔
        ∀ f : Face, ∀ x ∈ grid_cells (getFace c f), x = (getFace c f).r0.c0) ∧
    is_solved allSameCube = true ∧
    (getFace allSameCube .U).r0.c0 = (getFace allSameCube .D).r0.c0 := by
  refine ⟨?_, by decide, rfl⟩
  intro β _ c
  rw [is_solved]
  simp only [List.all_eq_true, beq_iff_eq]
  constructor
  · intro h f x hx
    exact h f (by cases f <;> simp [face_keys]) x hx
  · intro h f _ x hx
    exact h f x hx

set_option maxHeartbeats 2000000 in
set_option maxRecDepth 10000 in
/-- Claim C4: every single turn, for all 12 (face, direction)
combinations, only permutes stickers: the multiset of the 54 sticker
values is unchanged. -/
theorem turn_preserves_sticker_multiset (s : Cube α) (f : Face) (cw : Bool) :
    cubeStickers (rotate_cube_face s f cw) = cubeStickers s := by
  obtain ⟨⟨⟨a1,a2,a3⟩,⟨a4,a5,a6⟩,⟨a7,a8,a9⟩⟩,⟨⟨b1,b2,b3⟩,⟨b4,b5,b6⟩,⟨b7,b8,b9⟩⟩,⟨⟨c1,c2,c3⟩,⟨c4,c5,c6⟩,⟨c7,c8,c9⟩⟩,⟨⟨d1,d2,d3⟩,⟨d4,d5,d6⟩,⟨d7,d8,d9⟩⟩,⟨⟨e1,e2,e3⟩,⟨e4,e5,e6⟩,⟨e7,e8,e9⟩⟩,⟨⟨f1,f2,f3⟩,⟨f4,f5,f6⟩,⟨f7,f8,f9⟩⟩⟩ := s
  cases f <;> cases cw <;>
    (simp only [rotate_cube_face, seqFor, readStrip, writeStrip, getFace, setFace, get_row,
      set_row, get_col, set_col, rotate_face_matrix, transposeGrid, reverseRows, reverseRow,
      mapRows, cubeStickers, gridStickers];
     abel_nf)
